import Mathlib

/-!
Shallow embedding of the `recall` terminal viewer (HerrPixel/recall).

The embedding covers:
* the domain model and navigation state machine of `src/app.rs`
  (`App`, `AppState`, `QuitReason`, `Config`, `Page`, `Entry`);
* the rendering layer of `src/ui.rs` (`ui`, `build_table`, `build_shortcut`),
  with ratatui spans modelled as records of content, color and bold flag;
* the configuration builder of `src/config.rs` (`build_config_toml`,
  `build_page`, `build_entry`, the serde deserialization of `RecallToml`,
  `PageToml` and `EntryToml`, and the pure part of `read_from_config`);
* the key-event dispatcher `handle_key_event` of `src/main.rs`.

Machine integers: `page_number` is a Rust `usize`; the arithmetic in
`increment_page` is modelled with release-profile wrapping semantics,
i.e. explicitly modulo `2 ^ 64` (`number_of_pages() - 1` underflows when
the page list is empty; a debug build would panic at that subtraction,
a release build wraps to `2 ^ 64 - 1`).

The TOML parser is an external crate; per the spec (section 4.1) it
produces a generic ordered mapping, modelled here as an association list
`List (String × Value)` in document order.  Whether the real `toml::Table`
preserves insertion order depends on the `preserve_order` cargo feature
chosen in the repository's `Cargo.toml`, which is not part of `src/`;
the ordered mapping below is modelled from the spec's words.
-/

namespace Recall

/-- ratatui color values, restricted to the forms the program constructs:
the two named default colors and 8-bit indexed colors (`Color::Indexed`). -/
inductive Color where
  | White
  | Cyan
  | Indexed (n : Fin 256)
deriving DecidableEq, Repr

/-- Embeds `Entry` from `src/app.rs`: name (identifier), content (shortcut key
tokens) and description. -/
structure Entry where
  name : String
  content : List String
  description : String
deriving DecidableEq, Repr

/-- Embeds `Page` from `src/app.rs`. -/
structure Page where
  name : String
  entries : List Entry
deriving DecidableEq, Repr

/-- Embeds `Config` from `src/app.rs`. -/
structure Config where
  primary_color : Color
  highlight_color : Color
  pages : List Page
deriving DecidableEq, Repr

/-- Embeds `QuitReason` from `src/app.rs`. -/
inductive QuitReason where
  | Sigint
  | CloseKeyPressed
  | InitSubcommandCompleted
deriving DecidableEq, Repr

/-- Embeds `AppState` from `src/app.rs`. -/
inductive AppState where
  | Running
  | Quitting (reason : QuitReason)
deriving DecidableEq, Repr

/-- Embeds `App` from `src/app.rs`: lifecycle state, current page index and the
immutable configuration. -/
structure App where
  state : AppState
  page_number : Nat
  config : Config
deriving DecidableEq, Repr

/-- Embeds `DEFAULT_PRIMARY_COLOR` from `src/app.rs` (`Color::White`). -/
def DEFAULT_PRIMARY_COLOR : Color := Color.White

/-- Embeds `DEFAULT_SECONDARY_COLOR` from `src/app.rs` (`Color::Cyan`). -/
def DEFAULT_SECONDARY_COLOR : Color := Color.Cyan

/-- One more than the largest `usize` value (64-bit target). -/
def USIZE : Nat := 2 ^ 64

/-- Embeds `App::new` from `src/app.rs`. -/
def App.new (config : Config) : App :=
  { state := AppState.Running, page_number := 0, config := config }

/-- Embeds `App::quit` from `src/app.rs`: unconditionally sets the state to
`Quitting(reason)`. -/
def App.quit (a : App) (reason : QuitReason) : App :=
  { a with state := AppState.Quitting reason }

/-- Embeds `App::current_page_number` from `src/app.rs`. -/
def App.current_page_number (a : App) : Nat := a.page_number

/-- Embeds `App.number_of_pages` from `src/app.rs`. -/
def App.number_of_pages (a : App) : Nat := a.config.pages.length

/-- Embeds `App::increment_page` from `src/app.rs`.  The guard compares against
`self.number_of_pages() - 1` on `usize`, which wraps modulo `2 ^ 64` when
the page list is empty (release profile; a debug build panics there). -/
def App.increment_page (a : App) : App :=
  if a.page_number = (a.number_of_pages + (USIZE - 1)) % USIZE then a
  else { a with page_number := (a.page_number + 1) % USIZE }

/-- Embeds `App::decrement_page` from `src/app.rs`. -/
def App.decrement_page (a : App) : App :=
  if a.page_number = 0 then a
  else { a with page_number := a.page_number - 1 }

/-- Embeds `App::get_current_page` from `src/app.rs`: `pages.get(page_number)`
with an `anyhow` error when the index is out of bounds. -/
def App.get_current_page (a : App) : Except String Page :=
  match a.config.pages[a.page_number]? with
  | some p => Except.ok p
  | none => Except.error ("Can not get page " ++ toString a.page_number ++ " from config")

/-- Embeds `App::primary_color` from `src/app.rs`. -/
def App.primary_color (a : App) : Color := a.config.primary_color

/-- Embeds `App::highlight_color` from `src/app.rs`. -/
def App.highlight_color (a : App) : Color := a.config.highlight_color

/-- A ratatui `Span` as the program builds them: a content string with a
foreground color and a bold flag. -/
structure Span where
  content : String
  color : Color
  bold : Bool
deriving DecidableEq, Repr

/-- Rendered cell width of a span.  ratatui's `Span::width` is the unicode
display width of the content, which for the ASCII content this program
renders equals the character count; styling (bold, color) adds no width. -/
def Span.width (s : Span) : Nat := s.content.length

/-- A ratatui `Line` is a sequence of spans; `Line::width` sums the span
widths. -/
def lineWidth (l : List Span) : Nat := (l.map Span.width).sum

/-- Embeds `build_shortcut` from `src/ui.rs`: empty content gives the empty line;
otherwise the first token is pushed bold in the highlight color, and every
later token is preceded by a plain "+" span in the primary color and pushed
bold in the highlight color. -/
def build_shortcut (content : List String) (primary_color highlight_color : Color) :
    List Span :=
  match content with
  | [] => []
  | first :: rest =>
      { content := first, color := highlight_color, bold := true } ::
        rest.flatMap (fun component =>
          [{ content := "+", color := primary_color, bold := false },
           { content := component, color := highlight_color, bold := true }])

/-- The data `build_table` computes before wrapping it in a ratatui
`Table`: the rows (shortcut line, description) in entry order, and the
maximum shortcut width used for the shortcut column constraint. -/
structure TableData where
  rows : List (List Span × String)
  maximum_shortcut_length : Nat
deriving DecidableEq, Repr

/-- Embeds `build_table` from `src/ui.rs`: one pass over the entries, building a
row per entry and folding the maximum shortcut line width, starting from 0. -/
def build_table (entries : List Entry) (primary_color highlight_color : Color) :
    TableData :=
  entries.foldl
    (fun acc entry =>
      let shortcut := build_shortcut entry.content primary_color highlight_color
      { rows := acc.rows ++ [(shortcut, entry.description)],
        maximum_shortcut_length :=
          max acc.maximum_shortcut_length (lineWidth shortcut) })
    { rows := [], maximum_shortcut_length := 0 }

/-- The frame description `ui` produces: title line, legend line (whose
last span is the page counter) and the table. -/
structure Frame where
  title : List Span
  legend : List Span
  table : TableData
deriving DecidableEq, Repr

/-- Embeds `ui` from `src/ui.rs`.  The source calls
`app.get_current_page().expect(..)`; the `expect` panic on an out-of-range
index is modelled as error propagation. -/
def ui (app : App) : Except String Frame :=
  match app.get_current_page with
  | Except.error e => Except.error e
  | Except.ok curr_page =>
  let page_counter :=
    " [Page " ++ toString (app.current_page_number + 1) ++ " of " ++
      toString app.number_of_pages ++ "] "
  Except.ok
    { title := [{ content := "[ " ++ curr_page.name ++ " ]",
                  color := app.highlight_color, bold := true }],
      legend :=
        [{ content := " <Left> ", color := app.highlight_color, bold := false },
         { content := "Previous Page", color := app.primary_color, bold := false },
         { content := " <Right>", color := app.highlight_color, bold := false },
         { content := "Next Page", color := app.primary_color, bold := false },
         { content := " <q> ", color := app.highlight_color, bold := false },
         { content := "Close", color := app.primary_color, bold := false },
         { content := page_counter, color := app.highlight_color, bold := false }],
      table := build_table curr_page.entries app.primary_color app.highlight_color }

/-- A generic TOML value, as produced by the document parser.  Tables are
modelled from the spec (section 4.1) as generic ordered mappings: association
lists in document (insertion) order. -/
inductive Value where
  | str (s : String)
  | integer (n : Int)
  | boolean (b : Bool)
  | array (xs : List Value)
  | table (kvs : List (String × Value))

/-- Field access on a TOML table: the value under the first occurrence of
the key, if any. -/
def lookupKey (kvs : List (String × Value)) (k : String) : Option Value :=
  (kvs.find? (fun kv => kv.1 == k)).map Prod.snd

/-- Embeds `RecallToml` from `src/config.rs`: the optional color fields of the
`[recall]` table, `u8`-valued. -/
structure RecallToml where
  primary_color : Option (Fin 256)
  highlight_color : Option (Fin 256)
deriving DecidableEq, Repr

/-- Embeds `EntryToml` from `src/config.rs`: a content array of strings and a
description string, both mandatory. -/
structure EntryToml where
  content : List String
  description : String
deriving DecidableEq, Repr

/-- Embeds `PageToml` from `src/config.rs`: an insertion-ordered mapping from
entry identifiers to entry records. -/
def PageToml : Type := List (String × EntryToml)

/-- Embeds `ConfigToml` from `src/config.rs`: the optional `[recall]` settings and
the insertion-ordered page mapping (`IndexMap`).  The source field is named
`recall`, which is a reserved command name in this Lean setup, so the field
is called `recall_settings` here. -/
structure ConfigToml where
  recall_settings : Option RecallToml
  pages : List (String × PageToml)

/-- Embeds `RECALL_TABLE_NAME` from `src/config.rs`. -/
def RECALL_TABLE_NAME : String := "recall"

/-- Deserializing a TOML value as a string (used for content array
elements). -/
def asString (v : Value) : Option String :=
  match v with
  | Value.str s => some s
  | _ => none

/-- Deserializing a TOML value as `Vec<String>`. -/
def asStringArray (v : Value) : Option (List String) :=
  match v with
  | Value.array xs => xs.mapM asString
  | _ => none

/-- Deserializing an optional `u8` field of `RecallToml`: an absent field
is `none`; a present value must be an integer in `[0, 255]`. -/
def asOptionU8 (v : Option Value) : Except String (Option (Fin 256)) :=
  match v with
  | none => Except.ok none
  | some (Value.integer n) =>
      if h : 0 ≤ n ∧ n < 256 then
        Except.ok (some ⟨n.toNat, by omega⟩)
      else Except.error "invalid value: integer out of range for u8"
  | some _ => Except.error "invalid type: expected integer"

/-- serde's `Deserialize` derive for `RecallToml` applied to a TOML value:
the value must be a table; the two known fields are optional; unknown
fields are ignored (no `deny_unknown_fields` attribute is present). -/
def tryIntoRecall (v : Value) : Except String RecallToml :=
  match v with
  | Value.table kvs =>
      match asOptionU8 (lookupKey kvs "primary_color") with
      | Except.error e => Except.error e
      | Except.ok p =>
          match asOptionU8 (lookupKey kvs "highlight_color") with
          | Except.error e => Except.error e
          | Except.ok h => Except.ok { primary_color := p, highlight_color := h }
  | _ => Except.error "invalid type: expected table"

/-- serde's `Deserialize` derive for `EntryToml` applied to a TOML value:
the value must be a table; `content` (array of strings) and `description`
(string) are mandatory, and a missing field is reported as
`missing field ...` without any key path (deserialization from a `Value`
carries no spans); unknown fields are ignored. -/
def tryIntoEntry (v : Value) : Except String EntryToml :=
  match v with
  | Value.table kvs =>
      match lookupKey kvs "content" with
      | none => Except.error "missing field `content`"
      | some cv =>
          match asStringArray cv with
          | none => Except.error "invalid type for field `content`"
          | some content =>
              match lookupKey kvs "description" with
              | none => Except.error "missing field `description`"
              | some (Value.str d) =>
                  Except.ok { content := content, description := d }
              | some _ => Except.error "invalid type for field `description`"
  | _ => Except.error "invalid type: expected table"

/-- Deserializing `PageToml` (`IndexMap<String, EntryToml>`) from a TOML
value: each entry value is deserialized in encounter order; an entry error
propagates unchanged (the map deserializer adds no key path). -/
def tryIntoPage (v : Value) : Except String PageToml :=
  match v with
  | Value.table kvs =>
      kvs.mapM (fun kv => (tryIntoEntry kv.2).map (fun e => (kv.1, e)))
  | _ => Except.error "invalid type: expected table"

/-- Embeds `IndexMap::insert`: an existing key keeps its position and gets the new
value; a fresh key is appended. -/
def insertIndexMap (m : List (String × PageToml)) (k : String) (v : PageToml) :
    List (String × PageToml) :=
  if m.any (fun kv => kv.1 == k) then
    m.map (fun kv => if kv.1 == k then (k, v) else kv)
  else m ++ [(k, v)]

/-- The loop body of `build_config_toml` from `src/config.rs`, recursing
over the top-level table in document order.  `anyhow` context chains are
flattened into a single message separated by a colon. -/
def build_config_aux (rest : List (String × Value)) (acc : ConfigToml) :
    Except String ConfigToml :=
  match rest with
  | [] => Except.ok acc
  | kv :: rest =>
      if kv.1 = RECALL_TABLE_NAME then
        match tryIntoRecall kv.2 with
        | Except.error e =>
            Except.error ("Failed to parse recall settings: " ++ e)
        | Except.ok r => build_config_aux rest { acc with recall_settings := some r }
      else
        match tryIntoPage kv.2 with
        | Except.error e =>
            Except.error ("Failed to parse page " ++ kv.1 ++ ": " ++ e)
        | Except.ok p =>
            build_config_aux rest { acc with pages := insertIndexMap acc.pages kv.1 p }

/-- Embeds `build_config_toml` from `src/config.rs`. -/
def build_config_toml (toml_table : List (String × Value)) : Except String ConfigToml :=
  build_config_aux toml_table { recall_settings := none, pages := [] }

/-- Embeds `build_entry` from `src/config.rs`. -/
def build_entry (name : String) (entry : EntryToml) : Entry :=
  { name := name, content := entry.content, description := entry.description }

/-- Embeds `build_page` from `src/config.rs`. -/
def build_page (name : String) (page : PageToml) : Page :=
  { name := name, entries := page.map (fun kv => build_entry kv.1 kv.2) }

/-- The pure tail of `read_from_config` from `src/config.rs`, starting from
the parsed top-level table: build the `ConfigToml`, map the pages through
`build_page`, and resolve the two colors with the nested `if let` defaulting
logic. -/
def read_from_config (toml_table : List (String × Value)) : Except String Config :=
  match build_config_toml toml_table with
  | Except.error e => Except.error e
  | Except.ok config_toml =>
  let pages := config_toml.pages.map (fun kv => build_page kv.1 kv.2)
  let primary_color :=
    match config_toml.recall_settings with
    | some recall_config =>
        match recall_config.primary_color with
        | some c => Color.Indexed c
        | none => DEFAULT_PRIMARY_COLOR
    | none => DEFAULT_PRIMARY_COLOR
  let highlight_color :=
    match config_toml.recall_settings with
    | some recall_config =>
        match recall_config.highlight_color with
        | some c => Color.Indexed c
        | none => DEFAULT_SECONDARY_COLOR
    | none => DEFAULT_SECONDARY_COLOR
  Except.ok { primary_color := primary_color,
              highlight_color := highlight_color,
              pages := pages }

/-- The key codes `handle_key_event` in `src/main.rs` distinguishes; every
other crossterm key code takes the wildcard arm and is modelled by
`Other`. -/
inductive KeyCode where
  | Left
  | Right
  | Char (c : Char)
  | Other
deriving DecidableEq, Repr

/-- A crossterm `KeyEvent`: key code plus modifier bitmask
(SHIFT = 1, CONTROL = 2, ALT = 4, ...). -/
structure KeyEvent where
  code : KeyCode
  modifiers : Nat
deriving DecidableEq, Repr

/-- Embeds `KeyModifiers::CONTROL` as a bitmask. -/
def CONTROL : Nat := 2

/-- Embeds `handle_key_event` from `src/main.rs`: when the modifier set equals
exactly CONTROL, only `c` quits (Sigint); otherwise Left decrements, Right
increments, `q` quits (CloseKeyPressed), and everything else is ignored. -/
def handle_key_event (key : KeyEvent) (app : App) : App :=
  if key.modifiers = CONTROL then
    match key.code with
    | KeyCode.Char c => if c = 'c' then app.quit QuitReason.Sigint else app
    | _ => app
  else
    match key.code with
    | KeyCode.Left => app.decrement_page
    | KeyCode.Right => app.increment_page
    | KeyCode.Char c => if c = 'q' then app.quit QuitReason.CloseKeyPressed else app
    | _ => app

/-- Substring test helper: does the first character list start the
second? -/
def charListStarts (needle hay : List Char) : Bool :=
  match needle, hay with
  | [], _ => true
  | _ :: _, [] => false
  | a :: as, b :: bs => a == b && charListStarts as bs

/-- Substring test helper on character lists. -/
def charListContains (needle hay : List Char) : Bool :=
  match hay with
  | [] => needle.isEmpty
  | _ :: bs => charListStarts needle hay || charListContains needle bs

/-- Does `hay` contain `needle` as a contiguous substring? -/
def strContains (needle hay : String) : Bool :=
  charListContains needle.toList hay.toList

/-! Concrete fixtures used by counterexamples and witnesses. -/

/-- A validated configuration whose page list is empty. -/
def emptyConfig : Config :=
  { primary_color := Color.White, highlight_color := Color.Cyan, pages := [] }

/-- Entries of a demo page whose widest shortcut is built from the tokens
`Ctrl`, `Shift`, `C`, with all other shortcuts shorter. -/
def demoEntries : List Entry :=
  [{ name := "terminal_copy", content := ["Ctrl", "Shift", "C"],
     description := "Copies inside a terminal" },
   { name := "copy", content := ["Ctrl", "C"], description := "Copies the selection" },
   { name := "note", content := [], description := "An entry with no shortcut" }]

/-- A one-page demo configuration with the default colors. -/
def demoConfig : Config :=
  { primary_color := Color.White, highlight_color := Color.Cyan,
    pages := [{ name := "general", entries := demoEntries }] }

/-- An application that is already quitting because of a SIGINT. -/
def quittingApp : App :=
  { state := AppState.Quitting QuitReason.Sigint, page_number := 0, config := demoConfig }

/-! Claim theorems. -/

/-- Claim C1, evaluated at the failing input: on a configuration with zero
pages, `increment_page` is not a no-op.  The guard compares the index with
`number_of_pages() - 1`, which underflows the `usize` subtraction when the
page list is empty (release profile wraps to `2 ^ 64 - 1`, a debug build
panics), so the index moves from 0 to 1 — outside the claimed interval and
not inert. -/
theorem increment_page_escapes_on_empty_config :
    (App.new emptyConfig).increment_page.page_number = 1
    ∧ (App.new emptyConfig).number_of_pages = 0
    ∧ (App.new emptyConfig).increment_page ≠ App.new emptyConfig := by
  decide

/-- Claim C2, counterexample: rendering a configuration whose page list is
empty does not produce an informational panel — `ui` fails (the source
panics through `expect` on `get_current_page`). -/
theorem ui_fails_on_empty_config :
    ui (App.new emptyConfig) = Except.error "Can not get page 0 from config" := by
  rfl

/-- Claim C2, amended: rendering succeeds exactly when the current index is
inside the page list; with an empty page list `ui` fails with the
out-of-range page error instead of rendering a panel. -/
theorem ui_ok_iff_index_in_range (app : App) :
    (app.page_number < app.number_of_pages → ∃ f, ui app = Except.ok f)
    ∧ (app.number_of_pages = 0 →
        ui app = Except.error
          ("Can not get page " ++ toString app.page_number ++ " from config")) := by
  constructor
  · intro h
    have hlt : app.page_number < app.config.pages.length := h
    have hsome := List.getElem?_eq_getElem hlt
    exact ⟨_, by simp only [ui, App.get_current_page, hsome]; rfl⟩
  · intro h
    have hnone : app.config.pages[app.page_number]? = none := by
      have : app.config.pages.length ≤ app.page_number := by
        simp only [App.number_of_pages] at h
        omega
      exact List.getElem?_eq_none this
    simp [ui, App.get_current_page, hnone]

/-- Witness for the amended claim C2 at a concrete one-page application. -/
theorem ui_ok_iff_index_in_range_witness :
    (App.new demoConfig).page_number < (App.new demoConfig).number_of_pages
    ∧ ∃ f, ui (App.new demoConfig) = Except.ok f :=
  ⟨by decide, (ui_ok_iff_index_in_range (App.new demoConfig)).1 (by decide)⟩

/-- Claim C3, counterexample: the `Quitting` state is not absorbing.  A
`quit` issued while already `Quitting(Sigint)` overwrites the reason with
`CloseKeyPressed`, changing the navigation state. -/
theorem quit_overwrites_reason_while_quitting :
    (quittingApp.quit QuitReason.CloseKeyPressed).state
      = AppState.Quitting QuitReason.CloseKeyPressed
    ∧ quittingApp.state = AppState.Quitting QuitReason.Sigint
    ∧ quittingApp.quit QuitReason.CloseKeyPressed ≠ quittingApp := by
  decide

/-- Claim C3, amended: `quit` from any state — `Running` or already
`Quitting` — sets the state to `Quitting` carrying exactly the reason
passed, preserving index and configuration; and `increment_page` /
`decrement_page` never change the lifecycle state (they act on the index
regardless of it).  Absorption of `Quitting` is enforced only by the main
loop, which stops dispatching once the app is inactive. -/
theorem quit_sets_exact_reason_from_any_state (a : App) (r : QuitReason) :
    (a.quit r).state = AppState.Quitting r
    ∧ (a.quit r).page_number = a.page_number
    ∧ (a.quit r).config = a.config
    ∧ a.increment_page.state = a.state
    ∧ a.decrement_page.state = a.state := by
  refine ⟨rfl, rfl, rfl, ?_, ?_⟩ <;>
    simp only [App.increment_page, App.decrement_page] <;>
    split <;> rfl

/-- Unfolding lemma for the fold inside `build_table`, generalized over the
accumulator: the fold appends one row per entry in order and folds the
maximum of the shortcut line widths. -/
theorem build_table_foldl (entries : List Entry) (p h : Color) (acc : TableData) :
    entries.foldl
      (fun acc entry =>
        let shortcut := build_shortcut entry.content p h
        { rows := acc.rows ++ [(shortcut, entry.description)],
          maximum_shortcut_length :=
            max acc.maximum_shortcut_length (lineWidth shortcut) })
      acc
    = { rows := acc.rows ++
          entries.map (fun e => (build_shortcut e.content p h, e.description)),
        maximum_shortcut_length :=
          (entries.map (fun e => lineWidth (build_shortcut e.content p h))).foldl
            max acc.maximum_shortcut_length } := by
  induction entries generalizing acc with
  | nil => simp
  | cons e es ih => simp [ih]

/-- Claim C4, amended: the shortcut-column width is the maximum rendered
width over all built shortcut spans (bold styling adds no width, `Span.width`
only measures content), and for the demo page whose widest shortcut is
built from the tokens `Ctrl`, `Shift`, `C` — rendered `Ctrl+Shift+C`, which
is 12 visible characters including the two separators — with all other
shortcuts shorter, the computed column width is 12. -/
theorem shortcut_column_width_is_max_width :
    (∀ (entries : List Entry) (p h : Color),
      (build_table entries p h).maximum_shortcut_length
        = (entries.map (fun e => lineWidth (build_shortcut e.content p h))).foldl max 0)
    ∧ (build_table demoEntries Color.White Color.Cyan).maximum_shortcut_length = 12 := by
  constructor
  · intro entries p h
    simp [build_table, build_table_foldl]
  · decide

/-- Claim C4, counterexample: on the demo page whose widest shortcut is
built from the tokens `Ctrl`, `Shift`, `C`, the computed column width is
not 13 — the rendered string `Ctrl+Shift+C` has 12 visible characters, not
the 13 the claim asserts. -/
theorem shortcut_column_width_not_13 :
    (build_table demoEntries Color.White Color.Cyan).maximum_shortcut_length ≠ 13 := by
  decide

/-- Boolean well-styledness of a span in a shortcut line with primary color
`p` and highlight color `h`: either a bold key segment in the highlight
color, or a non-bold "+" separator in the primary color. -/
def spanWellStyled (p h : Color) (s : Span) : Bool :=
  (s.bold && decide (s.color = h))
    || (!s.bold && decide (s.content = "+") && decide (s.color = p))

/-- Helper: the bold spans of the separator/key tail are exactly the tail
tokens in order. -/
theorem sep_key_tail_bold (rest : List String) (p h : Color) :
    (((rest.flatMap (fun component =>
        [{ content := "+", color := p, bold := false },
         { content := component, color := h, bold := true }])) : List Span).filter
      (fun s => s.bold)).map Span.content = rest := by
  induction rest with
  | nil => rfl
  | cons c cs ih => simpa using ih

/-- Helper: the non-bold spans of the separator/key tail are one separator
per tail token. -/
theorem sep_key_tail_separators (rest : List String) (p h : Color) :
    (((rest.flatMap (fun component =>
        [{ content := "+", color := p, bold := false },
         { content := component, color := h, bold := true }])) : List Span).filter
      (fun s => !s.bold)).length = rest.length := by
  induction rest with
  | nil => rfl
  | cons c cs ih => simpa using ih

/-- Helper: every span of the separator/key tail is well styled. -/
theorem sep_key_tail_styled (rest : List String) (p h : Color) :
    ((rest.flatMap (fun component =>
        [{ content := "+", color := p, bold := false },
         { content := component, color := h, bold := true }])) : List Span).all
      (spanWellStyled p h) = true := by
  induction rest with
  | nil => rfl
  | cons c cs ih => simp [spanWellStyled, ih]

/-- Claim C5: an empty token list builds an empty span while the entry
still contributes a row with its description; a non-empty token list of k
tokens builds the first token as a bold highlight-colored segment followed,
for each later token, by a non-bold "+" separator in the primary color and
the token as a bold highlight-colored segment — so the bold segments are
exactly the k tokens in order, there are exactly k - 1 separators, and
every span is either a bold highlighted key or a non-bold primary "+". -/
theorem build_shortcut_structure :
    (∀ (p h : Color), build_shortcut [] p h = [])
    ∧ (∀ (first : String) (rest : List String) (p h : Color),
        build_shortcut (first :: rest) p h
          = { content := first, color := h, bold := true } ::
              rest.flatMap (fun component =>
                [{ content := "+", color := p, bold := false },
                 { content := component, color := h, bold := true }]))
    ∧ (∀ (content : List String) (p h : Color),
        ((build_shortcut content p h).filter (fun s => s.bold)).map Span.content
          = content)
    ∧ (∀ (content : List String) (p h : Color),
        ((build_shortcut content p h).filter (fun s => !s.bold)).length
          = content.length - 1)
    ∧ (∀ (content : List String) (p h : Color),
        (build_shortcut content p h).all (spanWellStyled p h) = true)
    ∧ (∀ (entries : List Entry) (p h : Color),
        (build_table entries p h).rows.map Prod.snd = entries.map Entry.description) := by
  refine ⟨fun p h => rfl, fun first rest p h => rfl, ?_, ?_, ?_, ?_⟩
  · intro content p h
    cases content with
    | nil => rfl
    | cons first rest => simpa [build_shortcut] using sep_key_tail_bold rest p h
  · intro content p h
    cases content with
    | nil => rfl
    | cons first rest => simpa [build_shortcut] using sep_key_tail_separators rest p h
  · intro content p h
    cases content with
    | nil => rfl
    | cons first rest => simp [build_shortcut, spanWellStyled, sep_key_tail_styled rest p h]
  · intro entries p h
    simp [build_table, build_table_foldl]

/-- Helper: the config-builder loop only changes the recall settings at a
key equal to `RECALL_TABLE_NAME`; if no key of the document equals it, the
settings stay whatever the accumulator held. -/
theorem build_config_aux_recall (doc : List (String × Value)) (acc ct : ConfigToml)
    (h : ∀ kv ∈ doc, kv.1 ≠ RECALL_TABLE_NAME)
    (hb : build_config_aux doc acc = Except.ok ct) :
    ct.recall_settings = acc.recall_settings := by
  induction doc generalizing acc with
  | nil =>
    simp only [build_config_aux, Except.ok.injEq] at hb
    rw [← hb]
  | cons kv rest ih =>
    have hne : kv.1 ≠ RECALL_TABLE_NAME := h kv (List.mem_cons_self kv rest)
    unfold build_config_aux at hb
    rw [if_neg hne] at hb
    cases htp : tryIntoPage kv.2 with
    | error e => rw [htp] at hb; cases hb
    | ok p =>
      rw [htp] at hb
      have hb' : build_config_aux rest
          { acc with pages := insertIndexMap acc.pages kv.1 p } = Except.ok ct := hb
      exact ih { acc with pages := insertIndexMap acc.pages kv.1 p }
        (fun kv' hm => h kv' (List.mem_cons_of_mem kv hm)) hb'

/-- Claim C6: when the `[recall]` section is absent from the document the
built `ConfigToml` carries no recall settings, and the final configuration
then uses the documented defaults (primary = white, highlight = cyan); when
the section is present, each absent color field falls back to its default,
while a present value `v` (an integer in 0–255) yields `Color::Indexed v`. -/
theorem missing_colors_use_defaults (doc : List (String × Value)) (ct : ConfigToml)
    (cfg : Config) (hct : build_config_toml doc = Except.ok ct)
    (hcfg : read_from_config doc = Except.ok cfg) :
    ((∀ kv ∈ doc, kv.1 ≠ RECALL_TABLE_NAME) → ct.recall_settings = none)
    ∧ (ct.recall_settings = none →
        cfg.primary_color = DEFAULT_PRIMARY_COLOR
        ∧ cfg.highlight_color = DEFAULT_SECONDARY_COLOR)
    ∧ (∀ rt, ct.recall_settings = some rt →
        (rt.primary_color = none → cfg.primary_color = DEFAULT_PRIMARY_COLOR)
        ∧ (∀ v, rt.primary_color = some v → cfg.primary_color = Color.Indexed v)
        ∧ (rt.highlight_color = none → cfg.highlight_color = DEFAULT_SECONDARY_COLOR)
        ∧ (∀ v, rt.highlight_color = some v → cfg.highlight_color = Color.Indexed v)) := by
  unfold read_from_config at hcfg
  rw [hct] at hcfg
  simp only [Except.ok.injEq] at hcfg
  subst hcfg
  refine ⟨?_, ?_, ?_⟩
  · intro hnone
    exact build_config_aux_recall doc _ ct hnone hct
  · intro hnone
    exact ⟨by simp [hnone], by simp [hnone]⟩
  · intro rt hrt
    refine ⟨?_, ?_, ?_, ?_⟩
    · intro hv; simp [hrt, hv]
    · intro v hv; simp [hrt, hv]
    · intro hv; simp [hrt, hv]
    · intro v hv; simp [hrt, hv]

/-- A parsed document with one page and no `[recall]` section. -/
def docNoRecall : List (String × Value) :=
  [("general", Value.table
      [("copy", Value.table
          [("content", Value.array [Value.str "Ctrl", Value.str "C"]),
           ("description", Value.str "Copy")])])]

/-- The `ConfigToml` built from `docNoRecall`. -/
def ctNoRecall : ConfigToml :=
  { recall_settings := none,
    pages := [("general", [("copy", { content := ["Ctrl", "C"], description := "Copy" })])] }

/-- The configuration built from `docNoRecall`. -/
def cfgNoRecall : Config :=
  { primary_color := Color.White, highlight_color := Color.Cyan,
    pages := [{ name := "general",
                entries := [{ name := "copy", content := ["Ctrl", "C"],
                              description := "Copy" }] }] }

/-- Witness for claim C6 at a concrete document with no `[recall]`
section. -/
theorem missing_colors_use_defaults_witness :
    build_config_toml docNoRecall = Except.ok ctNoRecall
    ∧ read_from_config docNoRecall = Except.ok cfgNoRecall
    ∧ ctNoRecall.recall_settings = none
    ∧ cfgNoRecall.primary_color = DEFAULT_PRIMARY_COLOR
    ∧ cfgNoRecall.highlight_color = DEFAULT_SECONDARY_COLOR :=
  ⟨rfl, rfl,
   (missing_colors_use_defaults docNoRecall ctNoRecall cfgNoRecall rfl rfl).1 (by decide),
   ((missing_colors_use_defaults docNoRecall ctNoRecall cfgNoRecall rfl rfl).2.1 rfl).1,
   ((missing_colors_use_defaults docNoRecall ctNoRecall cfgNoRecall rfl rfl).2.1 rfl).2⟩

/-- Helper: inserting a fresh key into an `IndexMap` appends it. -/
theorem insertIndexMap_fresh (m : List (String × PageToml)) (k : String) (v : PageToml)
    (h : ∀ pv ∈ m, pv.1 ≠ k) : insertIndexMap m k v = m ++ [(k, v)] := by
  have hany : m.any (fun kv => kv.1 == k) = false := by
    rw [List.any_eq_false]
    intro kv hm
    simpa using h kv hm
  simp [insertIndexMap, hany]

/-- Helper: under distinct top-level keys, the config-builder loop appends
the non-`recall` keys to the accumulated page map in document order. -/
theorem build_config_aux_pages (doc : List (String × Value)) (acc ct : ConfigToml)
    (hnd : (doc.map Prod.fst).Nodup)
    (hdisj : ∀ kv ∈ doc, ∀ pv ∈ acc.pages, kv.1 ≠ pv.1)
    (hb : build_config_aux doc acc = Except.ok ct) :
    ct.pages.map Prod.fst
      = acc.pages.map Prod.fst
        ++ (doc.filter (fun kv => kv.1 ≠ RECALL_TABLE_NAME)).map Prod.fst := by
  induction doc generalizing acc with
  | nil =>
    simp only [build_config_aux, Except.ok.injEq] at hb
    rw [← hb]
    simp
  | cons kv rest ih =>
    simp only [List.map_cons, List.nodup_cons] at hnd
    unfold build_config_aux at hb
    by_cases hr : kv.1 = RECALL_TABLE_NAME
    · rw [if_pos hr] at hb
      cases htr : tryIntoRecall kv.2 with
      | error e => rw [htr] at hb; cases hb
      | ok r =>
        rw [htr] at hb
        have hb' : build_config_aux rest { acc with recall_settings := some r }
            = Except.ok ct := hb
        have hres := ih { acc with recall_settings := some r } hnd.2
          (fun kv' hm pv hp => hdisj kv' (List.mem_cons_of_mem kv hm) pv hp) hb'
        simpa [List.filter_cons, hr] using hres
    · rw [if_neg hr] at hb
      cases htp : tryIntoPage kv.2 with
      | error e => rw [htp] at hb; cases hb
      | ok p =>
        rw [htp] at hb
        have hfresh : ∀ pv ∈ acc.pages, pv.1 ≠ kv.1 :=
          fun pv hp => Ne.symm (hdisj kv (List.mem_cons_self kv rest) pv hp)
        have hins := insertIndexMap_fresh acc.pages kv.1 p hfresh
        have hb0 : build_config_aux rest
            { acc with pages := insertIndexMap acc.pages kv.1 p } = Except.ok ct := hb
        rw [hins] at hb0
        have hb' : build_config_aux rest { acc with pages := acc.pages ++ [(kv.1, p)] }
            = Except.ok ct := hb0
        have hdisj' : ∀ kv' ∈ rest, ∀ pv ∈ acc.pages ++ [(kv.1, p)], kv'.1 ≠ pv.1 := by
          intro kv' hm pv hp
          rcases List.mem_append.mp hp with hp | hp
          · exact hdisj kv' (List.mem_cons_of_mem kv hm) pv hp
          · have hpv : pv = (kv.1, p) := by simpa using hp
            subst hpv
            intro he
            exact hnd.1 (he ▸ List.mem_map_of_mem Prod.fst hm)
        have hres := ih { acc with pages := acc.pages ++ [(kv.1, p)] } hnd.2 hdisj' hb'
        simpa [List.filter_cons, hr] using hres

/-- Claim C7: for every successfully built configuration from a document
with distinct top-level keys, the pages appear in the order their sections
were encountered in the document (the non-`recall` keys, never sorted), and
the entries of each page appear in the order their records were encountered
in that page's mapping. -/
theorem pages_preserve_document_order (doc : List (String × Value)) (cfg : Config)
    (hnd : (doc.map Prod.fst).Nodup)
    (hcfg : read_from_config doc = Except.ok cfg) :
    cfg.pages.map Page.name
      = (doc.filter (fun kv => kv.1 ≠ RECALL_TABLE_NAME)).map Prod.fst
    ∧ (∀ (name : String) (page : PageToml),
        (build_page name page).entries.map Entry.name = page.map Prod.fst) := by
  constructor
  · unfold read_from_config at hcfg
    cases hct : build_config_toml doc with
    | error e => rw [hct] at hcfg; cases hcfg
    | ok ct =>
      rw [hct] at hcfg
      simp only [Except.ok.injEq] at hcfg
      subst hcfg
      have hp := build_config_aux_pages doc { recall_settings := none, pages := [] } ct
        hnd (fun kv _ pv hp => absurd hp (List.not_mem_nil pv)) hct
      simpa [List.map_map, Function.comp, build_page] using hp
  · intro name page
    simp [build_page, build_entry, List.map_map, Function.comp]

/-- A two-page document whose section keys are deliberately not in sorted
order. -/
def orderedDoc : List (String × Value) :=
  [("zeta", Value.table
      [("e2", Value.table
          [("content", Value.array [Value.str "Ctrl"]),
           ("description", Value.str "x")]),
       ("e1", Value.table
          [("content", Value.array []),
           ("description", Value.str "y")])]),
   ("alpha", Value.table [])]

/-- The configuration built from `orderedDoc`: pages and entries in
document order. -/
def orderedCfg : Config :=
  { primary_color := Color.White, highlight_color := Color.Cyan,
    pages := [{ name := "zeta",
                entries := [{ name := "e2", content := ["Ctrl"], description := "x" },
                            { name := "e1", content := [], description := "y" }] },
              { name := "alpha", entries := [] }] }

/-- Witness for claim C7 at a concrete two-page document. -/
theorem pages_preserve_document_order_witness :
    (orderedDoc.map Prod.fst).Nodup
    ∧ read_from_config orderedDoc = Except.ok orderedCfg
    ∧ orderedCfg.pages.map Page.name
        = (orderedDoc.filter (fun kv => kv.1 ≠ RECALL_TABLE_NAME)).map Prod.fst :=
  ⟨by decide, rfl,
   (pages_preserve_document_order orderedDoc orderedCfg (by decide) rfl).1⟩

/-- A parsed document whose page `general` holds an entry `copy` that has a
content array but no description field. -/
def missingDescriptionDoc : List (String × Value) :=
  [("general", Value.table
      [("copy", Value.table
          [("content", Value.array [Value.str "Ctrl", Value.str "C"])])])]

/-- Claim C8, counterexample: building `missingDescriptionDoc` fails with a
message that names the offending page (`general`) and the missing field,
but not the offending entry identifier (`copy`): the page context is the
only identifier the builder attaches; the field error produced while
deserializing the entry record carries no key path. -/
theorem config_error_omits_entry_identifier :
    build_config_toml missingDescriptionDoc
      = Except.error "Failed to parse page general: missing field `description`"
    ∧ strContains "general"
        "Failed to parse page general: missing field `description`" = true
    ∧ strContains "copy"
        "Failed to parse page general: missing field `description`" = false := by
  refine ⟨rfl, by decide, by decide⟩

/-- Claim C8, amended: a page entry missing its content array or its
description string makes the build fail with a `ConfigError` whose message
names the offending page and the missing field (the entry identifier is not
part of the message), and the missing field is never silently defaulted. -/
theorem config_error_names_page_and_field (pageName entryName : String)
    (fields : List (String × Value)) (hp : pageName ≠ RECALL_TABLE_NAME) :
    (lookupKey fields "content" = none →
      build_config_toml [(pageName, Value.table [(entryName, Value.table fields)])]
        = Except.error ("Failed to parse page " ++ pageName ++ ": missing field `content`"))
    ∧ (∀ (c : Value) (cs : List String),
        lookupKey fields "content" = some c → asStringArray c = some cs →
        lookupKey fields "description" = none →
        build_config_toml [(pageName, Value.table [(entryName, Value.table fields)])]
          = Except.error
              ("Failed to parse page " ++ pageName ++ ": missing field `description`")) := by
  constructor
  · intro hc
    simp [build_config_toml, build_config_aux, hp, tryIntoPage, tryIntoEntry, hc,
      List.mapM, List.mapM.loop, Except.map]
    rw [String.append_assoc]
    rfl
  · intro c cs hc hcs hd
    simp [build_config_toml, build_config_aux, hp, tryIntoPage, tryIntoEntry, hc, hcs, hd,
      List.mapM, List.mapM.loop, Except.map]
    rw [String.append_assoc]
    rfl

/-- Witness for the amended claim C8 at a concrete entry with a content
array and no description. -/
theorem config_error_names_page_and_field_witness :
    build_config_toml
        [("general", Value.table [("copy", Value.table [("content", Value.array [])])])]
      = Except.error "Failed to parse page general: missing field `description`" :=
  (config_error_names_page_and_field "general" "copy" [("content", Value.array [])]
      (by decide)).2 (Value.array []) [] rfl rfl rfl

/-- Claim C9, counterexample: the dispatcher quits on `q` even with a
modifier held.  With the ALT modifier bit set (bitmask 4), the claim says
the input is "other" and applies no transition, but the code matches the
non-control branch and requests a close-key quit. -/
theorem alt_q_still_quits :
    (handle_key_event { code := KeyCode.Char 'q', modifiers := 4 }
        (App.new demoConfig)).state
      = AppState.Quitting QuitReason.CloseKeyPressed
    ∧ handle_key_event { code := KeyCode.Char 'q', modifiers := 4 } (App.new demoConfig)
        ≠ App.new demoConfig := by
  decide

/-- Claim C9, amended: dispatch is a total function on key events; when the
modifier set equals exactly CONTROL, `c` requests a Sigint quit and every
other key applies no transition; with any other modifier set, left-arrow
decrements, right-arrow increments, the character `q` requests a
close-key quit, and every other key applies no transition. -/
theorem handle_key_event_dispatch (m : Nat) (c : Char) (app : App) :
    handle_key_event { code := KeyCode.Left, modifiers := m } app
      = (if m = CONTROL then app else app.decrement_page)
    ∧ handle_key_event { code := KeyCode.Right, modifiers := m } app
      = (if m = CONTROL then app else app.increment_page)
    ∧ handle_key_event { code := KeyCode.Char c, modifiers := m } app
      = (if m = CONTROL then
           (if c = 'c' then app.quit QuitReason.Sigint else app)
         else
           (if c = 'q' then app.quit QuitReason.CloseKeyPressed else app))
    ∧ handle_key_event { code := KeyCode.Other, modifiers := m } app = app := by
  refine ⟨rfl, rfl, rfl, ?_⟩
  simp only [handle_key_event]
  split <;> rfl

/-- Claim C10: deserialization tolerates unknown extra fields.  An entry
table containing `content` and `description` deserializes successfully no
matter what other fields sit beside them, and a `[recall]` table whose two
known color fields deserialize successfully is accepted no matter what
other fields it contains — serde derives without `deny_unknown_fields`
silently skip unrecognized keys. -/
theorem unknown_fields_are_ignored :
    (∀ (kvs : List (String × Value)) (c : Value) (cs : List String) (d : String),
      lookupKey kvs "content" = some c → asStringArray c = some cs →
      lookupKey kvs "description" = some (Value.str d) →
      tryIntoEntry (Value.table kvs) = Except.ok { content := cs, description := d })
    ∧ (∀ (kvs : List (String × Value)) (p q : Option (Fin 256)),
      asOptionU8 (lookupKey kvs "primary_color") = Except.ok p →
      asOptionU8 (lookupKey kvs "highlight_color") = Except.ok q →
      tryIntoRecall (Value.table kvs)
        = Except.ok { primary_color := p, highlight_color := q }) := by
  constructor
  · intro kvs c cs d hc hcs hd
    simp [tryIntoEntry, hc, hcs, hd]
  · intro kvs p q hp hq
    simp [tryIntoRecall, hp, hq]

/-- Witness for claim C10: concrete tables carrying unrecognized extra
fields still deserialize, ignoring them. -/
theorem unknown_fields_are_ignored_witness :
    tryIntoEntry (Value.table
        [("content", Value.array []), ("description", Value.str "x"),
         ("surprise", Value.integer 7)])
      = Except.ok { content := [], description := "x" }
    ∧ tryIntoRecall (Value.table [("surprise", Value.str "y")])
      = Except.ok { primary_color := none, highlight_color := none } :=
  ⟨unknown_fields_are_ignored.1
      [("content", Value.array []), ("description", Value.str "x"),
       ("surprise", Value.integer 7)] (Value.array []) [] "x" rfl rfl rfl,
   unknown_fields_are_ignored.2 [("surprise", Value.str "y")] none none rfl rfl⟩

end Recall
